import Mathlib

/-!
# The Windows event loop of libapi (`src/api/src/win/api_loop.c`)

A shallow embedding of the loop's run cycle, its start/run/stop entry points and
the wait-bound computation, followed by the properties proved about them.

Conventions of the embedding

* `uint64_t`, `DWORD`, handles and pointers are natural numbers; the null pointer
  and the null handle are `0`.  Unsigned arithmetic that can wrap is written with
  an explicit modulus (`sub64`, the `DWORD` cast in `phase_wait`).
* Everything the loop calls but does not define (the clock, the timer engine, the
  completion port, the handle processors, the allocator) is an input: the clock is
  a stream of readings consumed one per call, everything else is a record of the
  values the calls of one iteration return.
* Every external call is logged together with the loop fields at the time of the
  call.  Every store to `loop->now` or `loop->last_activity` is logged too, with
  the fields just after the store.
* External calls are taken not to write `iocp`, `now` or `last_activity`.
-/

namespace Libapi

/-! ## Constants -/

/-- The value `(uint64_t)-1`. -/
def UINT64_MAX : Nat := 2 ^ 64 - 1

/-- The Windows `INFINITE` timeout of a blocking wait, `0xFFFFFFFF`. -/
def INFINITE : Nat := 0xFFFFFFFF

/-- The Windows error code `ERROR_ABANDONED_WAIT_0` (winerror.h). -/
def ERROR_ABANDONED_WAIT_0 : Nat := 735

/-- The Windows error code `WAIT_TIMEOUT` (winerror.h). -/
def WAIT_TIMEOUT : Nat := 258

/-- Modelled from the spec: `api_error.h` is not part of the sources; the spec
says that `0`/`OK` denotes success. -/
def API__OK : Int := 0

/-! ## Data model -/

/-- The three timer queues owned by a loop (`loop->sleeps`, `loop->idles`,
`loop->timeouts`). -/
inductive Queue where
  | sleeps
  | idles
  | timeouts
  deriving DecidableEq, Repr

/-- The timer class passed to `api_timer_process`. -/
inductive TimerType where
  | TIMER_Sleep
  | TIMER_Idle
  | TIMER_Timeout
  deriving DecidableEq, Repr

/-- The fields of `api_loop_t` that `api_loop.c` reads and writes itself. -/
structure api_loop_t where
  iocp : Nat
  now : Nat
  last_activity : Nat
  deriving DecidableEq, Repr

/-- The calls `api_loop.c` makes into its collaborators, and its stores to the
time fields. -/
inductive Event where
  | scheduler_init
  | loop_ref
  | timer_process (q : Queue) (type : TimerType) (value : Nat)
  | wait (timeout : Nat)
  | processor (win transfered overlapped error : Nat)
  | store_now
  | store_last_activity
  | timer_terminate (q : Queue)
  | wait_notify
  | scheduler_destroy
  | pool_init
  | pool_cleanup
  | CloseHandle (h : Nat)
  | CreateIoCompletionPort
  | malloc
  | free (p : Nat)
  | SetLastError (e : Nat)
  | beginthreadex
  | async_post
  deriving DecidableEq, Repr

/-- A loop, the number of clock readings taken so far, and the log. -/
structure Machine where
  loop : api_loop_t
  ticks : Nat
  log : List (api_loop_t × Event)
  deriving DecidableEq, Repr

/-- What the collaborators return during one iteration of the run cycle. -/
structure Inputs where
  /-- result of `api_timer_process(&loop->sleeps, TIMER_Sleep, ..)` -/
  sleeps_fired : Int
  /-- result of `api_timers_nearest_event(queue, now)` -/
  nearest : Queue → Nat → Nat
  /-- result of `GetQueuedCompletionStatus` -/
  status : Bool
  transfered : Nat
  key : Nat
  overlapped : Nat
  /-- result of `GetLastError()` -/
  last_error : Nat
  /-- result of `api_timer_process(&loop->idles, TIMER_Idle, ..)` -/
  idles_fired : Int

/-! ## Primitive steps -/

/-- Unsigned 64-bit subtraction `a - b`. -/
def sub64 (a b : Nat) : Nat := (a + 2 ^ 64 - b % 2 ^ 64) % 2 ^ 64

/-- Log an external call with the loop fields at the time of the call. -/
def emit (e : Event) (m : Machine) : Machine :=
  { m with log := m.log ++ [(m.loop, e)] }

/-- The statement `loop->now = api_time_current();`. -/
def refresh_now (clock : Nat → Nat) (m : Machine) : Machine :=
  emit Event.store_now
    { m with loop := { m.loop with now := clock m.ticks }, ticks := m.ticks + 1 }

/-- The statements `loop->now = api_time_current(); loop->last_activity = loop->now;`. -/
def refresh_activity (clock : Nat → Nat) (m : Machine) : Machine :=
  let m1 := refresh_now clock m
  emit Event.store_last_activity
    { m1 with loop := { m1.loop with last_activity := m1.loop.now } }

/-! ## `api_loop_calculate_wait_timeout` -/

/-- The function `api_loop_calculate_wait_timeout`; `nearest` stands for
`api_timers_nearest_event`. -/
def api_loop_calculate_wait_timeout (nearest : Queue → Nat → Nat)
    (loop : api_loop_t) : Nat :=
  let timeout := UINT64_MAX
  let timeout_sleep := nearest Queue.sleeps loop.now
  let timeout_idle := nearest Queue.idles loop.now
  let timeout_timeout := nearest Queue.timeouts loop.now
  let timeout := if timeout_sleep < timeout then timeout_sleep else timeout
  let timeout := if timeout_idle < timeout then timeout_idle else timeout
  let timeout := if timeout_timeout < timeout then timeout_timeout else timeout
  timeout

/-! ## The run cycle of `api_loop_run_internal` -/

/-- The local variables of `api_loop_run_internal` that outlive the wait, the
machine, and whether the `break` statement was reached. -/
structure Frame where
  m : Machine
  failed : Bool
  error : Nat
  key : Nat
  broke : Bool

/-- Lines 103-107: process the sleep queue against `loop->now`; refresh the time
fields if any entry fired. -/
def phase_sleep (clock : Nat → Nat) (inp : Inputs) (m : Machine) : Machine :=
  let m1 := emit (Event.timer_process Queue.sleeps TimerType.TIMER_Sleep m.loop.now) m
  if 0 < inp.sleeps_fired then refresh_activity clock m1 else m1

/-- Lines 109-113: clear `failed` and `error`, block on the completion port with
the wait bound cast to `DWORD`, then refresh `loop->now`. -/
def phase_wait (clock : Nat → Nat) (inp : Inputs) (m : Machine) : Frame :=
  let m1 := emit
    (Event.wait (api_loop_calculate_wait_timeout inp.nearest m.loop % 2 ^ 32)) m
  { m := refresh_now clock m1, failed := false, error := 0, key := inp.key,
    broke := false }

/-- Lines 120-144: the wait failed and returned no descriptor. -/
def no_descriptor (clock : Nat → Nat) (inp : Inputs) (f : Frame) : Frame :=
  if f.error = ERROR_ABANDONED_WAIT_0 then
    { f with m := { f.m with loop := { f.m.loop with iocp := 0 } },
             failed := true, broke := true }
  else if f.error = WAIT_TIMEOUT then
    let f1 := { f with failed := false, key := 0 }
    let m1 := emit (Event.timer_process Queue.idles TimerType.TIMER_Idle
      (sub64 f1.m.loop.now f1.m.loop.last_activity)) f1.m
    { f1 with m := if 0 < inp.idles_fired then refresh_activity clock m1 else m1 }
  else f

/-- Lines 146-155: the wait failed and returned a descriptor. -/
def with_descriptor (inp : Inputs) (f : Frame) : Frame :=
  if inp.transfered = 0 then { f with failed := false } else f

/-- Lines 115-156: classify the result of the wait. -/
def phase_classify (clock : Nat → Nat) (inp : Inputs) (f : Frame) : Frame :=
  if inp.status = false then
    let f1 := { f with failed := true, error := inp.last_error }
    let f2 := if inp.overlapped = 0 then no_descriptor clock inp f1 else f1
    if f2.broke then f2
    else if inp.overlapped ≠ 0 then with_descriptor inp f2 else f2
  else f

/-- Lines 158-164: hand the completion to the processor of the handle. -/
def phase_dispatch (clock : Nat → Nat) (inp : Inputs) (f : Frame) : Frame :=
  if f.failed = false ∧ f.key ≠ 0 then
    let m1 := emit (Event.processor f.key inp.transfered inp.overlapped f.error) f.m
    { f with m := refresh_activity clock m1 }
  else f

/-- Lines 166-169: process the timeout queue against the inactivity, refresh
`loop->now`. -/
def phase_timeout (clock : Nat → Nat) (f : Frame) : Frame :=
  let m1 := emit (Event.timer_process Queue.timeouts TimerType.TIMER_Timeout
    (sub64 f.m.loop.now f.m.loop.last_activity)) f.m
  { f with m := refresh_now clock m1 }

/-- One pass through the body of the `do ... while (!failed)` loop.  The result
is the machine after the pass and the value of `failed` the loop condition sees
(`true` as well when the body was left through `break`). -/
def iteration (clock : Nat → Nat) (inp : Inputs) (m : Machine) : Machine × Bool :=
  let f := phase_classify clock inp (phase_wait clock inp (phase_sleep clock inp m))
  if f.broke then (f.m, true)
  else
    let g := phase_timeout clock (phase_dispatch clock inp f)
    (g.m, g.failed)

/-- The `do ... while (!failed)` loop, started at iteration `i`; `env i` holds
the inputs of iteration `i`.  The result is the machine reached and whether the
loop has exited; it has not when the fuel ran out first. -/
def run_cycle (clock : Nat → Nat) (env : Nat → Inputs) :
    Nat → Nat → Machine → Machine × Bool
  | 0, _, m => (m, false)
  | fuel + 1, i, m =>
    let r := iteration clock (env i) m
    if r.2 then (r.1, true) else run_cycle clock env fuel (i + 1) r.1

/-- The function `api_loop_cleanup`. -/
def api_loop_cleanup (m : Machine) : Int × Machine :=
  let m := emit (Event.timer_terminate Queue.idles) m
  let m := emit (Event.timer_terminate Queue.sleeps) m
  let m := emit (Event.timer_terminate Queue.timeouts) m
  let m := emit Event.wait_notify m
  let m := emit Event.scheduler_destroy m
  let m := emit Event.pool_cleanup m
  (API__OK, m)

/-- Lines 173-186: what `api_loop_run_internal` does once the loop has exited;
`close_ok` is the result of `CloseHandle`. -/
def run_exit (close_ok : Bool) (m : Machine) : Int × Machine :=
  let c := api_loop_cleanup m
  let m1 := c.2
  let m2 :=
    if m1.loop.iocp ≠ 0 then
      let m3 := emit (Event.CloseHandle m1.loop.iocp) m1
      if !close_ok then m3 else m3
    else m1
  (API__OK, m2)

/-- Lines 93-99: what `api_loop_run_internal` does before it enters the loop. -/
def run_enter (clock : Nat → Nat) (m : Machine) : Machine :=
  emit Event.loop_ref (refresh_activity clock (emit Event.scheduler_init m))

/-- The function `api_loop_run_internal`. -/
def api_loop_run_internal (clock : Nat → Nat) (env : Nat → Inputs) (close_ok : Bool)
    (fuel : Nat) (m : Machine) : Option (Int × Machine) :=
  let r := run_cycle clock env fuel 0 (run_enter clock m)
  if r.2 then some (run_exit close_ok r.1) else none

/-! ## Start, run, stop -/

/-- The function `api_loop_init`. -/
def api_loop_init (m : Machine) : Int × Machine :=
  (API__OK, emit Event.pool_init m)

/-- The function `api_loop_stop`; `close_ok` is the result of `CloseHandle`. -/
def api_loop_stop (close_ok : Bool) (m : Machine) : Int × Machine :=
  if m.loop.iocp ≠ 0 then
    let m1 := emit (Event.CloseHandle m.loop.iocp) m
    if !close_ok then (0, m1) else (API__OK, m1)
  else (API__OK, m)

/-- What the platform returns to one call of `api_loop_start`. -/
structure StartInputs where
  /-- result of `malloc`, the address of the new loop or `0` -/
  malloc_result : Nat
  /-- result of `CreateIoCompletionPort` -/
  iocp : Nat
  /-- result of `GetLastError()` -/
  last_error : Nat
  /-- result of `_beginthreadex` -/
  thread : Nat
  /-- value of `errno` after `_beginthreadex` -/
  errno : Int
  /-- result of `CloseHandle` -/
  close_ok : Bool

/-- The function `api_loop_start`.  The result is the returned error, the value
left in `*loop`, and the machine; `api_error_translate` and `API__NO_MEMORY`
come from headers that are not part of the sources. -/
def api_loop_start (api_error_translate : Nat → Int) (API__NO_MEMORY : Int)
    (inp : StartInputs) : Int × Nat × Machine :=
  let m0 : Machine := { loop := { iocp := 0, now := 0, last_activity := 0 },
                        ticks := 0, log := [] }
  let m1 := emit Event.malloc m0
  if inp.malloc_result = 0 then (API__NO_MEMORY, 0, m1)
  else
    let m2 := emit Event.CreateIoCompletionPort m1
    let m3 := { m2 with loop := { m2.loop with iocp := inp.iocp } }
    if m3.loop.iocp = 0 then
      let sys_error := inp.last_error
      let m4 := emit (Event.free inp.malloc_result) m3
      let m5 := emit (Event.SetLastError sys_error) m4
      (api_error_translate sys_error, 0, m5)
    else
      let r := api_loop_init m3
      if r.1 ≠ API__OK then
        let m4 := emit (Event.CloseHandle r.2.loop.iocp) r.2
        let m5 := if !inp.close_ok then m4 else m4
        (r.1, 0, emit (Event.free inp.malloc_result) m5)
      else
        let m4 := emit Event.beginthreadex r.2
        if inp.thread = 0 then
          let error := inp.errno
          let c := api_loop_cleanup m4
          let m5 := emit (Event.CloseHandle c.2.loop.iocp) c.2
          let m6 := if !inp.close_ok then m5 else m5
          (error, 0, emit (Event.free inp.malloc_result) m6)
        else (r.1, inp.malloc_result, m4)

/-- What the platform returns to one call of `api_loop_run` before the run cycle
starts. -/
structure RunInputs where
  /-- result of `CreateIoCompletionPort` -/
  iocp : Nat
  /-- result of `GetLastError()` -/
  last_error : Nat
  /-- the `callback` argument, `0` when there is none -/
  callback : Nat
  /-- result of `api_loop_post`, that is of `api_async_post` -/
  post_result : Int
  /-- result of `CloseHandle` -/
  close_ok : Bool

/-- The function `api_loop_run`. -/
def api_loop_run (api_error_translate : Nat → Int) (clock : Nat → Nat)
    (env : Nat → Inputs) (inp : RunInputs) (fuel : Nat) : Option (Int × Machine) :=
  let m0 : Machine := { loop := { iocp := 0, now := 0, last_activity := 0 },
                        ticks := 0, log := [] }
  let m1 := emit Event.CreateIoCompletionPort m0
  let m2 := { m1 with loop := { m1.loop with iocp := inp.iocp } }
  if m2.loop.iocp = 0 then some (api_error_translate inp.last_error, m2)
  else
    let r := api_loop_init m2
    if r.1 ≠ API__OK then
      let m3 := emit (Event.CloseHandle r.2.loop.iocp) r.2
      some (r.1, if !inp.close_ok then m3 else m3)
    else if inp.callback ≠ 0 then
      let m3 := emit Event.async_post r.2
      let error := inp.post_result
      if API__OK ≠ error then
        let m4 := emit (Event.CloseHandle m3.loop.iocp) m3
        some (error, if !inp.close_ok then m4 else m4)
      else api_loop_run_internal clock env inp.close_ok fuel m3
    else api_loop_run_internal clock env inp.close_ok fuel r.2

/-! ## Reading the log -/

/-- The events of a log, without the loop fields. -/
def events (log : List (api_loop_t × Event)) : List Event := log.map Prod.snd

/-- The log of one iteration started on `m`, without what `m` had logged before. -/
def iteration_log (clock : Nat → Nat) (inp : Inputs) (m : Machine) :
    List (api_loop_t × Event) :=
  (iteration clock inp { m with log := [] }).1.log

/-- Calls of a handle processor. -/
def is_processor : Event → Bool
  | Event.processor _ _ _ _ => true
  | _ => false

/-- Calls of `api_timer_process` on the given queue. -/
def is_timer_process (q : Queue) : Event → Bool
  | Event.timer_process q1 _ _ => decide (q1 = q)
  | _ => false

/-- Calls of `GetQueuedCompletionStatus`. -/
def is_wait : Event → Bool
  | Event.wait _ => true
  | _ => false

/-- Calls of `CloseHandle` on the handle `h`. -/
def is_close (h : Nat) : Event → Bool
  | Event.CloseHandle h1 => decide (h1 = h)
  | _ => false

/-- The steps of `api_loop_cleanup`. -/
def is_cleanup : Event → Bool
  | Event.timer_terminate _ => true
  | Event.wait_notify => true
  | Event.scheduler_destroy => true
  | Event.pool_cleanup => true
  | _ => false

/-- The entries of a log that follow the first call selected by `p`. -/
def after (p : Event → Bool) (log : List (api_loop_t × Event)) :
    List (api_loop_t × Event) :=
  (log.dropWhile (fun x => !p x.2)).tail

/-- The entries of a log that are calls selected by `p`. -/
def calls (p : Event → Bool) (log : List (api_loop_t × Event)) :
    List (api_loop_t × Event) :=
  log.filter (fun x => p x.2)

/-- An inactivity timer sees the true difference of the time fields: the entry
was logged with `last_activity ≤ now`, and if it is the processing of the idle or
of the timeout queue, the value passed is `now - last_activity`. -/
def no_wrap (x : api_loop_t × Event) : Prop :=
  x.1.last_activity ≤ x.1.now ∧
  ∀ q ty v, x.2 = Event.timer_process q ty v → q ≠ Queue.sleeps →
    v = x.1.now - x.1.last_activity

/-- The time fields are ordered, and `now` is a 64-bit value not ahead of the
clock. -/
def time_inv (clock : Nat → Nat) (m : Machine) : Prop :=
  m.loop.last_activity ≤ m.loop.now ∧ m.loop.now ≤ clock m.ticks ∧
  m.loop.now < 2 ^ 64

/-- The time fields are in order now and were in order at every logged point. -/
def steady (clock : Nat → Nat) (m : Machine) : Prop :=
  time_inv clock m ∧ ∀ x ∈ m.log, no_wrap x

/-! ## Sample inputs -/

/-- A clock that advances by one millisecond per reading up to 1000. -/
def sample_clock : Nat → Nat := fun k => min k 1000

/-- A loop with an open completion handle. -/
def sample_machine : Machine :=
  { loop := { iocp := 7, now := 0, last_activity := 0 }, ticks := 0, log := [] }

/-- A sleep timer due in 30 ms, an idle timer due in 20 ms, no timeout timer. -/
def sample_nearest : Queue → Nat → Nat
  | Queue.sleeps, _ => 30
  | Queue.idles, _ => 20
  | Queue.timeouts, _ => UINT64_MAX

/-- A sleep timer due in `2^32 - 1` ms (about 49.7 days), no other timer. -/
def far_nearest : Queue → Nat → Nat
  | Queue.sleeps, _ => 4294967295
  | _, _ => UINT64_MAX

/-- A wait that timed out, with the timers of `sample_nearest`. -/
def timed_out : Inputs :=
  { sleeps_fired := 0, nearest := sample_nearest, status := false, transfered := 0,
    key := 0, overlapped := 0, last_error := WAIT_TIMEOUT, idles_fired := 1 }

/-- A wait that returned a completion of 5 bytes for the handle at address 3. -/
def completed : Inputs :=
  { sleeps_fired := 0, nearest := sample_nearest, status := true, transfered := 5,
    key := 3, overlapped := 9, last_error := 0, idles_fired := 0 }

/-- A wait that ended because the completion port was closed. -/
def abandoned : Inputs :=
  { sleeps_fired := 0, nearest := sample_nearest, status := false, transfered := 0,
    key := 0, overlapped := 0, last_error := ERROR_ABANDONED_WAIT_0, idles_fired := 0 }

/-- A wait that dequeued a failed operation which had transferred 5 bytes
(error 64, `ERROR_NETNAME_DELETED`). -/
def io_error : Inputs :=
  { sleeps_fired := 0, nearest := sample_nearest, status := false, transfered := 5,
    key := 3, overlapped := 9, last_error := 64, idles_fired := 0 }

/-- A wait that timed out while the only timer is the one of `far_nearest`. -/
def far_timer : Inputs :=
  { sleeps_fired := 0, nearest := far_nearest, status := false, transfered := 0,
    key := 0, overlapped := 0, last_error := WAIT_TIMEOUT, idles_fired := 0 }

/-! ## Basic facts -/

@[simp]
theorem emit_log (e : Event) (m : Machine) :
    (emit e m).log = m.log ++ [(m.loop, e)] := rfl

@[simp]
theorem emit_loop (e : Event) (m : Machine) : (emit e m).loop = m.loop := rfl

@[simp]
theorem emit_ticks (e : Event) (m : Machine) : (emit e m).ticks = m.ticks := rfl

@[simp]
theorem phase_dispatch_failed (clock : Nat → Nat) (inp : Inputs) (f : Frame) :
    (phase_dispatch clock inp f).failed = f.failed := by
  unfold phase_dispatch; split_ifs <;> rfl

@[simp]
theorem phase_dispatch_broke (clock : Nat → Nat) (inp : Inputs) (f : Frame) :
    (phase_dispatch clock inp f).broke = f.broke := by
  unfold phase_dispatch; split_ifs <;> rfl

@[simp]
theorem phase_timeout_failed (clock : Nat → Nat) (f : Frame) :
    (phase_timeout clock f).failed = f.failed := rfl

/-! ## The wait bound -/

/-- C1: for every loop state, `api_loop_calculate_wait_timeout` returns the
minimum of the three values `api_timers_nearest_event` gives for the sleep, idle
and timeout queues at `loop->now`, and it returns `(uint64_t)-1` exactly when all
three values are `(uint64_t)-1`. -/
theorem calculate_wait_timeout_is_min (nearest : Queue → Nat → Nat) (loop : api_loop_t)
    (h : ∀ q, nearest q loop.now ≤ UINT64_MAX) :
    api_loop_calculate_wait_timeout nearest loop =
        min (nearest Queue.sleeps loop.now)
          (min (nearest Queue.idles loop.now) (nearest Queue.timeouts loop.now)) ∧
    (api_loop_calculate_wait_timeout nearest loop = UINT64_MAX ↔
      nearest Queue.sleeps loop.now = UINT64_MAX ∧
      nearest Queue.idles loop.now = UINT64_MAX ∧
      nearest Queue.timeouts loop.now = UINT64_MAX) := by
  have h1 := h Queue.sleeps
  have h2 := h Queue.idles
  have h3 := h Queue.timeouts
  simp only [api_loop_calculate_wait_timeout, UINT64_MAX] at *
  constructor
  · split_ifs <;> omega
  · split_ifs <;> omega

/-- Witness of C1: a sleep timer due in 30 ms and an idle timer due in 20 ms. -/
theorem calculate_wait_timeout_is_min_witness :
    api_loop_calculate_wait_timeout sample_nearest sample_machine.loop =
        min (sample_nearest Queue.sleeps sample_machine.loop.now)
          (min (sample_nearest Queue.idles sample_machine.loop.now)
            (sample_nearest Queue.timeouts sample_machine.loop.now)) ∧
    (api_loop_calculate_wait_timeout sample_nearest sample_machine.loop = UINT64_MAX ↔
      sample_nearest Queue.sleeps sample_machine.loop.now = UINT64_MAX ∧
      sample_nearest Queue.idles sample_machine.loop.now = UINT64_MAX ∧
      sample_nearest Queue.timeouts sample_machine.loop.now = UINT64_MAX) :=
  calculate_wait_timeout_is_min sample_nearest sample_machine.loop
    (by intro q; cases q <;> simp [sample_nearest, UINT64_MAX])

/-- C2, evaluated: with a single sleep timer due in `2^32 - 1` ms the wait bound is
that finite value, yet the `DWORD` handed to the blocking wait is `INFINITE`. -/
theorem far_timer_blocks_indefinitely :
    api_loop_calculate_wait_timeout far_nearest sample_machine.loop = 4294967295 ∧
    api_loop_calculate_wait_timeout far_nearest sample_machine.loop ≠ UINT64_MAX ∧
    calls is_wait (iteration_log sample_clock far_timer sample_machine) =
      [({ iocp := 7, now := 0, last_activity := 0 }, Event.wait INFINITE)] := by
  decide

/-! ## When the loop exits -/

/-- The loop condition after one iteration: `failed` is set exactly when the wait
failed and was neither a time-out without descriptor nor a failure with a
descriptor and zero bytes. -/
theorem iteration_failed_iff (clock : Nat → Nat) (inp : Inputs) (m : Machine) :
    (iteration clock inp m).2 = true ↔
      inp.status = false ∧
        ((inp.overlapped = 0 ∧ inp.last_error ≠ WAIT_TIMEOUT) ∨
         (inp.overlapped ≠ 0 ∧ inp.transfered ≠ 0)) := by
  by_cases hs : inp.status = false <;> by_cases ho : inp.overlapped = 0 <;>
    by_cases ha : inp.last_error = 735 <;> by_cases ht : inp.last_error = 258 <;>
    by_cases hz : inp.transfered = 0 <;>
    simp [iteration, phase_classify, phase_wait, no_descriptor, with_descriptor,
      ERROR_ABANDONED_WAIT_0, WAIT_TIMEOUT, hs, ho, ha, ht, hz]

/-- C3, refuted as stated: a wait that fails with a descriptor and 5 bytes
transferred is not an abandoned wait without descriptor, yet the iteration that
sees it is the last one: the loop exits with a single wait performed. -/
theorem exit_on_io_error :
    ¬ (io_error.status = false ∧ io_error.overlapped = 0 ∧
        io_error.last_error = ERROR_ABANDONED_WAIT_0) ∧
    (iteration sample_clock io_error sample_machine).2 = true ∧
    (run_cycle sample_clock (fun _ => io_error) 3 0 sample_machine).2 = true ∧
    (calls is_wait
      (run_cycle sample_clock (fun _ => io_error) 3 0 sample_machine).1.log).length
      = 1 := by
  decide

/-- C3, amended: an iteration is the last one if and only if its wait failed and
either returned no descriptor with an error other than "timed out" (the
"abandoned" error is one of these) or returned a descriptor with a non-zero byte
count; after every other wait result the loop performs another iteration. -/
theorem last_iteration_iff (clock : Nat → Nat) (env : Nat → Inputs) (fuel i : Nat)
    (m : Machine) :
    (run_cycle clock env (fuel + 1) i m =
      if (env i).status = false ∧
          (((env i).overlapped = 0 ∧ (env i).last_error ≠ WAIT_TIMEOUT) ∨
           ((env i).overlapped ≠ 0 ∧ (env i).transfered ≠ 0))
      then ((iteration clock (env i) m).1, true)
      else run_cycle clock env fuel (i + 1) (iteration clock (env i) m).1) ∧
    ((env i).status = false ∧ (env i).overlapped = 0 ∧
        (env i).last_error = ERROR_ABANDONED_WAIT_0 →
      run_cycle clock env (fuel + 1) i m = ((iteration clock (env i) m).1, true)) := by
  have key := iteration_failed_iff clock (env i) m
  constructor
  · by_cases hc : (iteration clock (env i) m).2 = true
    · rw [if_pos (key.mp hc)]
      simp [run_cycle, hc]
    · rw [if_neg (fun h => hc (key.mpr h))]
      simp [run_cycle, hc]
  · rintro ⟨h1, h2, h3⟩
    have hc : (iteration clock (env i) m).2 = true :=
      key.mpr ⟨h1, Or.inl ⟨h2, by rw [h3]; decide⟩⟩
    simp [run_cycle, hc]

/-- Witness of C3: the loop is stopped while it waits. -/
theorem last_iteration_iff_witness :
    run_cycle sample_clock (fun _ => abandoned) (0 + 1) 0 sample_machine =
      ((iteration sample_clock abandoned sample_machine).1, true) :=
  (last_iteration_iff sample_clock (fun _ => abandoned) 0 0 sample_machine).2
    (by decide)

/-! ## What one iteration does -/

@[simp]
theorem refresh_now_log (clock : Nat → Nat) (m : Machine) :
    (refresh_now clock m).log =
      m.log ++ [({ m.loop with now := clock m.ticks }, Event.store_now)] := rfl

@[simp]
theorem refresh_now_loop (clock : Nat → Nat) (m : Machine) :
    (refresh_now clock m).loop = { m.loop with now := clock m.ticks } := rfl

@[simp]
theorem refresh_now_ticks (clock : Nat → Nat) (m : Machine) :
    (refresh_now clock m).ticks = m.ticks + 1 := rfl

@[simp]
theorem refresh_activity_log (clock : Nat → Nat) (m : Machine) :
    (refresh_activity clock m).log =
      m.log ++ [({ m.loop with now := clock m.ticks }, Event.store_now),
        ({ m.loop with now := clock m.ticks, last_activity := clock m.ticks },
          Event.store_last_activity)] := by
  simp [refresh_activity]

@[simp]
theorem refresh_activity_loop (clock : Nat → Nat) (m : Machine) :
    (refresh_activity clock m).loop =
      { m.loop with now := clock m.ticks, last_activity := clock m.ticks } := rfl

@[simp]
theorem refresh_activity_ticks (clock : Nat → Nat) (m : Machine) :
    (refresh_activity clock m).ticks = m.ticks + 1 := rfl

/-- The machine just after line 113: the sleep queue processed, the wait
returned, `loop->now` refreshed. -/
theorem phase_wait_eq (clock : Nat → Nat) (inp : Inputs) (m : Machine) :
    phase_wait clock inp m =
      { m := refresh_now clock (emit
          (Event.wait (api_loop_calculate_wait_timeout inp.nearest m.loop % 2 ^ 32)) m),
        failed := false, error := 0, key := inp.key, broke := false } := rfl

/-- The five classes of wait results. -/
theorem wait_classes (inp : Inputs) :
    inp.status = true ∨
    (inp.status = false ∧ inp.overlapped ≠ 0) ∨
    (inp.status = false ∧ inp.overlapped = 0 ∧
      inp.last_error = ERROR_ABANDONED_WAIT_0) ∨
    (inp.status = false ∧ inp.overlapped = 0 ∧ inp.last_error = WAIT_TIMEOUT) ∨
    (inp.status = false ∧ inp.overlapped = 0 ∧
      inp.last_error ≠ ERROR_ABANDONED_WAIT_0 ∧ inp.last_error ≠ WAIT_TIMEOUT) := by
  cases hs : inp.status <;> by_cases ho : inp.overlapped = 0 <;>
    by_cases ha : inp.last_error = ERROR_ABANDONED_WAIT_0 <;>
    by_cases ht : inp.last_error = WAIT_TIMEOUT <;> simp [ho, ha, ht]

/-- Classification of a successful wait. -/
theorem classify_success (clock : Nat → Nat) (inp : Inputs) (f : Frame)
    (hs : inp.status = true) : phase_classify clock inp f = f := by
  simp [phase_classify, hs]

/-- Classification of a failed wait that returned a descriptor. -/
theorem classify_descriptor (clock : Nat → Nat) (inp : Inputs) (f : Frame)
    (hs : inp.status = false) (ho : inp.overlapped ≠ 0) (hb : f.broke = false) :
    phase_classify clock inp f =
      { f with failed := decide (inp.transfered ≠ 0), error := inp.last_error } := by
  by_cases hz : inp.transfered = 0 <;>
    simp [phase_classify, with_descriptor, hs, ho, hb, hz]

/-- Classification of the abandoned wait. -/
theorem classify_abandoned (clock : Nat → Nat) (inp : Inputs) (f : Frame)
    (hs : inp.status = false) (ho : inp.overlapped = 0)
    (ha : inp.last_error = ERROR_ABANDONED_WAIT_0) :
    phase_classify clock inp f =
      { f with m := { f.m with loop := { f.m.loop with iocp := 0 } },
               failed := true, error := inp.last_error, broke := true } := by
  simp [phase_classify, no_descriptor, hs, ho, ha]

/-- Classification of a wait that timed out. -/
theorem classify_timed_out (clock : Nat → Nat) (inp : Inputs) (f : Frame)
    (hs : inp.status = false) (ho : inp.overlapped = 0)
    (ht : inp.last_error = WAIT_TIMEOUT) (hb : f.broke = false) :
    phase_classify clock inp f =
      { f with
        m := if 0 < inp.idles_fired then
            refresh_activity clock (emit (Event.timer_process Queue.idles
              TimerType.TIMER_Idle (sub64 f.m.loop.now f.m.loop.last_activity)) f.m)
          else emit (Event.timer_process Queue.idles TimerType.TIMER_Idle
              (sub64 f.m.loop.now f.m.loop.last_activity)) f.m,
        failed := false, error := inp.last_error, key := 0 } := by
  simp [phase_classify, no_descriptor, hs, ho, ht, hb, WAIT_TIMEOUT,
    ERROR_ABANDONED_WAIT_0]

/-- Classification of a wait that failed without descriptor for another reason. -/
theorem classify_other (clock : Nat → Nat) (inp : Inputs) (f : Frame)
    (hs : inp.status = false) (ho : inp.overlapped = 0)
    (ha : inp.last_error ≠ ERROR_ABANDONED_WAIT_0) (ht : inp.last_error ≠ WAIT_TIMEOUT)
    (hb : f.broke = false) :
    phase_classify clock inp f =
      { f with failed := true, error := inp.last_error } := by
  simp [phase_classify, no_descriptor, hs, ho, ha, ht, hb]

/-- C4, refuted as stated: in the iteration that sees the abandoned wait the
timeout queue is not processed. -/
theorem abandoned_skips_timeouts :
    calls (is_timer_process Queue.timeouts)
      (iteration_log sample_clock abandoned sample_machine) = [] ∧
    calls is_wait (iteration_log sample_clock abandoned sample_machine) ≠ [] := by
  decide

/-- C4, amended: in every iteration whose wait is not an abandoned wait without
descriptor, the timeout queue is processed exactly once, after the wait, with the
64-bit difference `loop->now - loop->last_activity` of the loop at that point; in
the iteration that sees the abandoned wait it is not processed. -/
theorem timeouts_processed_unless_abandoned (clock : Nat → Nat) (inp : Inputs)
    (m : Machine) :
    (¬ (inp.status = false ∧ inp.overlapped = 0 ∧
          inp.last_error = ERROR_ABANDONED_WAIT_0) →
      ∃ l0 t l,
        calls (fun e => is_wait e || is_timer_process Queue.timeouts e)
            (iteration_log clock inp m) =
          [(l0, Event.wait t),
           (l, Event.timer_process Queue.timeouts TimerType.TIMER_Timeout
                (sub64 l.now l.last_activity))]) ∧
    (inp.status = false ∧ inp.overlapped = 0 ∧
        inp.last_error = ERROR_ABANDONED_WAIT_0 →
      calls (is_timer_process Queue.timeouts) (iteration_log clock inp m) = []) := by
  constructor
  · intro hna
    rcases wait_classes inp with hs | ⟨hs, ho⟩ | ⟨hs, ho, ha⟩ | ⟨hs, ho, ht⟩ |
      ⟨hs, ho, ha, ht⟩
    · by_cases h1 : 0 < inp.sleeps_fired <;> by_cases hk : inp.key = 0 <;>
        simp [iteration_log, iteration, classify_success _ _ _ hs, phase_wait_eq,
          phase_sleep, phase_dispatch, phase_timeout, calls, is_wait,
          is_timer_process, h1, hk]
    · by_cases h1 : 0 < inp.sleeps_fired <;> by_cases hk : inp.key = 0 <;>
        by_cases hz : inp.transfered = 0 <;>
        simp [iteration_log, iteration, classify_descriptor _ _ _ hs ho, phase_wait_eq,
          phase_sleep, phase_dispatch, phase_timeout, calls, is_wait,
          is_timer_process, h1, hk, hz]
    · exact absurd ⟨hs, ho, ha⟩ hna
    · by_cases h1 : 0 < inp.sleeps_fired <;> by_cases h2 : 0 < inp.idles_fired <;>
        simp [iteration_log, iteration, classify_timed_out _ _ _ hs ho ht,
          phase_wait_eq, phase_sleep, phase_dispatch, phase_timeout, calls, is_wait,
          is_timer_process, h1, h2]
    · by_cases h1 : 0 < inp.sleeps_fired <;>
        simp [iteration_log, iteration, classify_other _ _ _ hs ho ha ht,
          phase_wait_eq, phase_sleep, phase_dispatch, phase_timeout, calls, is_wait,
          is_timer_process, h1]
  · rintro ⟨hs, ho, ha⟩
    by_cases h1 : 0 < inp.sleeps_fired <;>
      simp [iteration_log, iteration, classify_abandoned _ _ _ hs ho ha,
        phase_wait_eq, phase_sleep, calls, is_timer_process, h1]

/-- C5: in an iteration the processor of the handle is invoked exactly once, with
the handle, the byte count, the descriptor, the loop and the error code (`0`
after a successful wait, the last error after a failed one), if and only if the
key is non-zero and the wait succeeded or failed with a descriptor and zero
bytes; it is not invoked after a timed-out or abandoned wait; the two stores that
follow an invocation leave `last_activity` equal to `now`. -/
theorem processor_invoked_iff (clock : Nat → Nat) (inp : Inputs) (m : Machine) :
    (inp.key ≠ 0 ∧ (inp.status = true ∨
        (inp.status = false ∧ inp.overlapped ≠ 0 ∧ inp.transfered = 0)) →
      ∃ l l1 l2,
        calls is_processor (iteration_log clock inp m) =
          [(l, Event.processor inp.key inp.transfered inp.overlapped
                (if inp.status then 0 else inp.last_error))] ∧
        (after is_processor (iteration_log clock inp m)).take 2 =
          [(l1, Event.store_now), (l2, Event.store_last_activity)] ∧
        l2.last_activity = l2.now) ∧
    (¬ (inp.key ≠ 0 ∧ (inp.status = true ∨
          (inp.status = false ∧ inp.overlapped ≠ 0 ∧ inp.transfered = 0))) →
      calls is_processor (iteration_log clock inp m) = []) ∧
    (inp.status = false ∧ inp.overlapped = 0 ∧
        (inp.last_error = WAIT_TIMEOUT ∨ inp.last_error = ERROR_ABANDONED_WAIT_0) →
      calls is_processor (iteration_log clock inp m) = []) := by
  rcases wait_classes inp with hs | ⟨hs, ho⟩ | ⟨hs, ho, ha⟩ | ⟨hs, ho, ht⟩ |
    ⟨hs, ho, ha, ht⟩
  · by_cases h1 : 0 < inp.sleeps_fired <;> by_cases hk : inp.key = 0 <;>
      simp [iteration_log, iteration, classify_success _ _ _ hs, phase_wait_eq,
        phase_sleep, phase_dispatch, phase_timeout, calls, after, is_processor,
        h1, hk, hs]
    all_goals exact ⟨_, _, ⟨rfl, rfl⟩, rfl⟩
  · by_cases h1 : 0 < inp.sleeps_fired <;> by_cases hk : inp.key = 0 <;>
      by_cases hz : inp.transfered = 0 <;>
      simp [iteration_log, iteration, classify_descriptor _ _ _ hs ho, phase_wait_eq,
        phase_sleep, phase_dispatch, phase_timeout, calls, after, is_processor,
        h1, hk, hz, hs, ho]
    all_goals exact ⟨_, _, ⟨rfl, rfl⟩, rfl⟩
  · by_cases h1 : 0 < inp.sleeps_fired <;>
      simp [iteration_log, iteration, classify_abandoned _ _ _ hs ho ha,
        phase_wait_eq, phase_sleep, calls, after, is_processor, h1, hs, ho]
  · by_cases h1 : 0 < inp.sleeps_fired <;> by_cases h2 : 0 < inp.idles_fired <;>
      simp [iteration_log, iteration, classify_timed_out _ _ _ hs ho ht,
        phase_wait_eq, phase_sleep, phase_dispatch, phase_timeout, calls, after,
        is_processor, h1, h2, hs, ho]
  · by_cases h1 : 0 < inp.sleeps_fired <;>
      simp [iteration_log, iteration, classify_other _ _ _ hs ho ha ht,
        phase_wait_eq, phase_sleep, phase_dispatch, phase_timeout, calls, after,
        is_processor, h1, hs, ho]

/-- Witness of C5: a completion of 5 bytes for the handle at address 3. -/
theorem processor_invoked_iff_witness :
    ∃ l l1 l2,
      calls is_processor (iteration_log sample_clock completed sample_machine) =
        [(l, Event.processor completed.key completed.transfered completed.overlapped
              (if completed.status then 0 else completed.last_error))] ∧
      (after is_processor (iteration_log sample_clock completed sample_machine)).take 2 =
        [(l1, Event.store_now), (l2, Event.store_last_activity)] ∧
      l2.last_activity = l2.now :=
  (processor_invoked_iff sample_clock completed sample_machine).1 (by decide)

/-- C6: in every iteration the sleep queue is processed against `loop->now`
before the blocking wait.  The idle queue is processed if and only if the wait
failed with no descriptor and the "timed out" error; it is then processed once,
right after the store of `now` that follows the wait, with the 64-bit difference
`now - last_activity`, and the refresh of `now` and `last_activity` follows
exactly when the number of fired entries is greater than zero. -/
theorem sleep_and_idle_processing (clock : Nat → Nat) (inp : Inputs) (m : Machine) :
    (∃ l0 t,
      calls (fun e => is_timer_process Queue.sleeps e || is_wait e)
          (iteration_log clock inp m) =
        [(m.loop, Event.timer_process Queue.sleeps TimerType.TIMER_Sleep m.loop.now),
         (l0, Event.wait t)]) ∧
    (inp.status = false ∧ inp.overlapped = 0 ∧ inp.last_error = WAIT_TIMEOUT →
      ∃ l l1 l2 l3 l4,
        calls (is_timer_process Queue.idles) (iteration_log clock inp m) =
          [(l, Event.timer_process Queue.idles TimerType.TIMER_Idle
                (sub64 l.now l.last_activity))] ∧
        (after is_wait (iteration_log clock inp m)).take 2 =
          [(l, Event.store_now),
           (l, Event.timer_process Queue.idles TimerType.TIMER_Idle
                (sub64 l.now l.last_activity))] ∧
        l.now = clock (if 0 < inp.sleeps_fired then m.ticks + 1 else m.ticks) ∧
        after (is_timer_process Queue.idles) (iteration_log clock inp m) =
          (if 0 < inp.idles_fired then
            [(l1, Event.store_now), (l2, Event.store_last_activity)] else []) ++
          [(l3, Event.timer_process Queue.timeouts TimerType.TIMER_Timeout
                (sub64 l3.now l3.last_activity)), (l4, Event.store_now)] ∧
        (0 < inp.idles_fired →
          l2.now = clock (if 0 < inp.sleeps_fired then m.ticks + 2 else m.ticks + 1) ∧
          l2.last_activity = l2.now ∧ l3 = l2) ∧
        (¬ 0 < inp.idles_fired → l3 = l)) ∧
    (¬ (inp.status = false ∧ inp.overlapped = 0 ∧ inp.last_error = WAIT_TIMEOUT) →
      calls (is_timer_process Queue.idles) (iteration_log clock inp m) = []) := by
  rcases wait_classes inp with hs | ⟨hs, ho⟩ | ⟨hs, ho, ha⟩ | ⟨hs, ho, ht⟩ |
    ⟨hs, ho, ha, ht⟩
  · by_cases h1 : 0 < inp.sleeps_fired <;> by_cases hk : inp.key = 0 <;>
      simp [iteration_log, iteration, classify_success _ _ _ hs, phase_wait_eq,
        phase_sleep, phase_dispatch, phase_timeout, calls, after, is_timer_process,
        is_wait, h1, hk, hs]
  · by_cases h1 : 0 < inp.sleeps_fired <;> by_cases hk : inp.key = 0 <;>
      by_cases hz : inp.transfered = 0 <;>
      simp [iteration_log, iteration, classify_descriptor _ _ _ hs ho, phase_wait_eq,
        phase_sleep, phase_dispatch, phase_timeout, calls, after, is_timer_process,
        is_wait, h1, hk, hz, hs, ho]
  · have hne : inp.last_error ≠ WAIT_TIMEOUT := by rw [ha]; decide
    by_cases h1 : 0 < inp.sleeps_fired <;>
      simp [iteration_log, iteration, classify_abandoned _ _ _ hs ho ha,
        phase_wait_eq, phase_sleep, calls, after, is_timer_process, is_wait,
        h1, hs, ho, hne]
  · by_cases h1 : 0 < inp.sleeps_fired <;> by_cases h2 : 0 < inp.idles_fired <;>
      simp [iteration_log, iteration, classify_timed_out _ _ _ hs ho ht,
        phase_wait_eq, phase_sleep, phase_dispatch, phase_timeout, calls, after,
        is_timer_process, is_wait, h1, h2, hs, ho, ht]
    all_goals first
      | exact ⟨_, ⟨rfl, rfl⟩, rfl, _, _, _, ⟨rfl, rfl, rfl, rfl⟩, rfl, rfl, rfl⟩
      | exact ⟨_, ⟨rfl, rfl⟩, rfl, rfl, ⟨m.loop, m.loop, rfl⟩⟩
  · by_cases h1 : 0 < inp.sleeps_fired <;>
      simp [iteration_log, iteration, classify_other _ _ _ hs ho ha ht,
        phase_wait_eq, phase_sleep, phase_dispatch, phase_timeout, calls, after,
        is_timer_process, is_wait, h1, hs, ho, ht]

/-- Witness of C6: a wait that timed out, after which one idle entry fired. -/
theorem sleep_and_idle_processing_witness :
    ∃ l l1 l2 l3 l4,
      calls (is_timer_process Queue.idles)
          (iteration_log sample_clock timed_out sample_machine) =
        [(l, Event.timer_process Queue.idles TimerType.TIMER_Idle
              (sub64 l.now l.last_activity))] ∧
      (after is_wait (iteration_log sample_clock timed_out sample_machine)).take 2 =
        [(l, Event.store_now),
         (l, Event.timer_process Queue.idles TimerType.TIMER_Idle
              (sub64 l.now l.last_activity))] ∧
      l.now = sample_clock (if 0 < timed_out.sleeps_fired then sample_machine.ticks + 1
        else sample_machine.ticks) ∧
      after (is_timer_process Queue.idles)
          (iteration_log sample_clock timed_out sample_machine) =
        (if 0 < timed_out.idles_fired then
          [(l1, Event.store_now), (l2, Event.store_last_activity)] else []) ++
        [(l3, Event.timer_process Queue.timeouts TimerType.TIMER_Timeout
              (sub64 l3.now l3.last_activity)), (l4, Event.store_now)] ∧
      (0 < timed_out.idles_fired →
        l2.now = sample_clock (if 0 < timed_out.sleeps_fired then
          sample_machine.ticks + 2 else sample_machine.ticks + 1) ∧
        l2.last_activity = l2.now ∧ l3 = l2) ∧
      (¬ 0 < timed_out.idles_fired → l3 = l) :=
  (sleep_and_idle_processing sample_clock timed_out sample_machine).2.1 (by decide)

/-- Witness of C4: a completion of 5 bytes for the handle at address 3. -/
theorem timeouts_processed_unless_abandoned_witness :
    ∃ l0 t l,
      calls (fun e => is_wait e || is_timer_process Queue.timeouts e)
          (iteration_log sample_clock completed sample_machine) =
        [(l0, Event.wait t),
         (l, Event.timer_process Queue.timeouts TimerType.TIMER_Timeout
              (sub64 l.now l.last_activity))] :=
  (timeouts_processed_unless_abandoned sample_clock completed sample_machine).1
    (by decide)

/-! ## The log of an iteration does not depend on what was logged before -/

/-- Running an iteration on a machine is running it on the same machine with an
empty log and putting the old log in front. -/
theorem iteration_eq (clock : Nat → Nat) (inp : Inputs) (m : Machine) :
    iteration clock inp m =
      ({ (iteration clock inp { m with log := [] }).1 with
          log := m.log ++ iteration_log clock inp m },
        (iteration clock inp { m with log := [] }).2) := by
  rcases wait_classes inp with hs | ⟨hs, ho⟩ | ⟨hs, ho, ha⟩ | ⟨hs, ho, ht⟩ |
    ⟨hs, ho, ha, ht⟩
  · by_cases h1 : 0 < inp.sleeps_fired <;> by_cases hk : inp.key = 0 <;>
      simp [iteration_log, iteration, classify_success _ _ _ hs, phase_wait_eq,
        phase_sleep, phase_dispatch, phase_timeout, refresh_now, refresh_activity,
        emit, h1, hk]
  · by_cases h1 : 0 < inp.sleeps_fired <;> by_cases hk : inp.key = 0 <;>
      by_cases hz : inp.transfered = 0 <;>
      simp [iteration_log, iteration, classify_descriptor _ _ _ hs ho, phase_wait_eq,
        phase_sleep, phase_dispatch, phase_timeout, refresh_now, refresh_activity,
        emit, h1, hk, hz]
  · by_cases h1 : 0 < inp.sleeps_fired <;>
      simp [iteration_log, iteration, classify_abandoned _ _ _ hs ho ha,
        phase_wait_eq, phase_sleep, refresh_now, refresh_activity, emit, h1]
  · by_cases h1 : 0 < inp.sleeps_fired <;> by_cases h2 : 0 < inp.idles_fired <;>
      simp [iteration_log, iteration, classify_timed_out _ _ _ hs ho ht,
        phase_wait_eq, phase_sleep, phase_dispatch, phase_timeout, refresh_now,
        refresh_activity, emit, h1, h2]
  · by_cases h1 : 0 < inp.sleeps_fired <;>
      simp [iteration_log, iteration, classify_other _ _ _ hs ho ha ht,
        phase_wait_eq, phase_sleep, phase_dispatch, phase_timeout, refresh_now,
        refresh_activity, emit, h1]

theorem iteration_log_append (clock : Nat → Nat) (inp : Inputs) (m : Machine) :
    (iteration clock inp m).1.log = m.log ++ iteration_log clock inp m := by
  rw [iteration_eq]

/-- An iteration performs no step of the cleanup. -/
theorem iteration_log_no_cleanup (clock : Nat → Nat) (inp : Inputs) (m : Machine) :
    ∀ x ∈ iteration_log clock inp m, is_cleanup x.2 = false := by
  rcases wait_classes inp with hs | ⟨hs, ho⟩ | ⟨hs, ho, ha⟩ | ⟨hs, ho, ht⟩ |
    ⟨hs, ho, ha, ht⟩
  · by_cases h1 : 0 < inp.sleeps_fired <;> by_cases hk : inp.key = 0 <;>
      simp [iteration_log, iteration, classify_success _ _ _ hs, phase_wait_eq,
        phase_sleep, phase_dispatch, phase_timeout, is_cleanup, h1, hk]
  · by_cases h1 : 0 < inp.sleeps_fired <;> by_cases hk : inp.key = 0 <;>
      by_cases hz : inp.transfered = 0 <;>
      simp [iteration_log, iteration, classify_descriptor _ _ _ hs ho, phase_wait_eq,
        phase_sleep, phase_dispatch, phase_timeout, is_cleanup, h1, hk, hz]
  · by_cases h1 : 0 < inp.sleeps_fired <;>
      simp [iteration_log, iteration, classify_abandoned _ _ _ hs ho ha,
        phase_wait_eq, phase_sleep, is_cleanup, h1]
  · by_cases h1 : 0 < inp.sleeps_fired <;> by_cases h2 : 0 < inp.idles_fired <;>
      simp [iteration_log, iteration, classify_timed_out _ _ _ hs ho ht,
        phase_wait_eq, phase_sleep, phase_dispatch, phase_timeout, is_cleanup, h1, h2]
  · by_cases h1 : 0 < inp.sleeps_fired <;>
      simp [iteration_log, iteration, classify_other _ _ _ hs ho ha ht,
        phase_wait_eq, phase_sleep, phase_dispatch, phase_timeout, is_cleanup, h1]

/-- The loop exits once an iteration within the fuel sees a fatal wait result. -/
theorem run_cycle_exits (clock : Nat → Nat) (env : Nat → Inputs) :
    ∀ (fuel i : Nat) (m : Machine) (n : Nat), i ≤ n → n < i + fuel →
      ((env n).status = false ∧
        (((env n).overlapped = 0 ∧ (env n).last_error ≠ WAIT_TIMEOUT) ∨
         ((env n).overlapped ≠ 0 ∧ (env n).transfered ≠ 0))) →
      (run_cycle clock env fuel i m).2 = true := by
  intro fuel
  induction fuel with
  | zero => intro i m n h1 h2; omega
  | succ k ih =>
    intro i m n h1 h2 hf
    by_cases hc : (iteration clock (env i) m).2 = true
    · simp [run_cycle, hc]
    · by_cases hin : i = n
      · subst hin
        exact absurd ((iteration_failed_iff clock (env i) m).mpr hf) hc
      · simp only [run_cycle, hc]
        exact ih (i + 1) _ n (by omega) (by omega) hf

/-- Whatever the loop logs is logged after what was there, and is no step of the
cleanup. -/
theorem run_cycle_log (clock : Nat → Nat) (env : Nat → Inputs) :
    ∀ (fuel i : Nat) (m : Machine),
      ∃ body, (run_cycle clock env fuel i m).1.log = m.log ++ body ∧
        ∀ x ∈ body, is_cleanup x.2 = false := by
  intro fuel
  induction fuel with
  | zero => intro i m; exact ⟨[], by simp [run_cycle], by simp⟩
  | succ k ih =>
    intro i m
    by_cases hc : (iteration clock (env i) m).2 = true
    · refine ⟨iteration_log clock (env i) m, ?_, iteration_log_no_cleanup _ _ _⟩
      simp [run_cycle, hc, iteration_log_append]
    · obtain ⟨body, hb, hn⟩ := ih (i + 1) (iteration clock (env i) m).1
      refine ⟨iteration_log clock (env i) m ++ body, ?_, ?_⟩
      · simp [run_cycle, hc, hb, iteration_log_append]
      · intro x hx
        rcases List.mem_append.mp hx with h | h
        · exact iteration_log_no_cleanup _ _ _ x h
        · exact hn x h

/-! ## Leaving the loop -/

theorem run_exit_loop (close_ok : Bool) (M : Machine) :
    (run_exit close_ok M).2.loop = M.loop := by
  by_cases hi : M.loop.iocp = 0 <;> cases close_ok <;>
    simp [run_exit, api_loop_cleanup, hi]

theorem run_exit_events (close_ok : Bool) (M : Machine) :
    events (run_exit close_ok M).2.log = events M.log ++
      [Event.timer_terminate Queue.idles, Event.timer_terminate Queue.sleeps,
       Event.timer_terminate Queue.timeouts, Event.wait_notify,
       Event.scheduler_destroy, Event.pool_cleanup] ++
      (if M.loop.iocp ≠ 0 then [Event.CloseHandle M.loop.iocp] else []) := by
  by_cases hi : M.loop.iocp = 0 <;> cases close_ok <;>
    simp [run_exit, api_loop_cleanup, events, hi]

theorem run_enter_events (clock : Nat → Nat) (m : Machine) :
    events (run_enter clock m).log = events m.log ++
      [Event.scheduler_init, Event.store_now, Event.store_last_activity,
       Event.loop_ref] := by
  simp [run_enter, events]

/-- C8: whenever the run cycle exits, which it does as soon as an iteration sees a
fatal wait result, `api_loop_run_internal` returns `API__OK`, whatever
`CloseHandle` returns, and what it logs ends with the cleanup performed once and
in full - the three timer queues terminated, then the waiters notified, then the
scheduler destroyed, then the pool released - followed only by the closing of
the handle if it is not null. -/
theorem run_internal_cleans_up_and_returns_ok (clock : Nat → Nat)
    (env : Nat → Inputs) (close_ok : Bool) (fuel : Nat) (m : Machine) (n : Nat)
    (hn : n < fuel)
    (hf : (env n).status = false ∧
      (((env n).overlapped = 0 ∧ (env n).last_error ≠ WAIT_TIMEOUT) ∨
       ((env n).overlapped ≠ 0 ∧ (env n).transfered ≠ 0))) :
    ∃ r body,
      api_loop_run_internal clock env close_ok fuel m = some r ∧
      r.1 = API__OK ∧
      events r.2.log = events m.log ++ body ++
        [Event.timer_terminate Queue.idles, Event.timer_terminate Queue.sleeps,
         Event.timer_terminate Queue.timeouts, Event.wait_notify,
         Event.scheduler_destroy, Event.pool_cleanup] ++
        (if r.2.loop.iocp ≠ 0 then [Event.CloseHandle r.2.loop.iocp] else []) ∧
      ∀ e ∈ body, is_cleanup e = false := by
  have hx := run_cycle_exits clock env fuel 0 (run_enter clock m) n (Nat.zero_le n)
    (by omega) hf
  obtain ⟨body, hb, hnc⟩ := run_cycle_log clock env fuel 0 (run_enter clock m)
  refine ⟨run_exit close_ok (run_cycle clock env fuel 0 (run_enter clock m)).1,
    [Event.scheduler_init, Event.store_now, Event.store_last_activity,
      Event.loop_ref] ++ events body, ?_, rfl, ?_, ?_⟩
  · simp [api_loop_run_internal, hx]
  · rw [run_exit_events, run_exit_loop]
    have he : events (run_cycle clock env fuel 0 (run_enter clock m)).1.log =
        events m.log ++ ([Event.scheduler_init, Event.store_now,
          Event.store_last_activity, Event.loop_ref] ++ events body) := by
      rw [hb]
      show events ((run_enter clock m).log ++ body) = _
      unfold events
      rw [List.map_append]
      have := run_enter_events clock m
      unfold events at this
      rw [this, List.append_assoc]
    rw [he]
  · intro e he
    rcases List.mem_append.mp he with h | h
    · simp at h
      rcases h with h | h | h | h <;> subst h <;> rfl
    · obtain ⟨x, hx1, hx2⟩ := List.mem_map.mp h
      rw [← hx2]
      exact hnc x hx1

/-- Witness of C8: the loop is stopped while it waits for the first time. -/
theorem run_internal_cleans_up_and_returns_ok_witness :
    ∃ r body,
      api_loop_run_internal sample_clock (fun _ => abandoned) false 1 sample_machine
        = some r ∧
      r.1 = API__OK ∧
      events r.2.log = events sample_machine.log ++ body ++
        [Event.timer_terminate Queue.idles, Event.timer_terminate Queue.sleeps,
         Event.timer_terminate Queue.timeouts, Event.wait_notify,
         Event.scheduler_destroy, Event.pool_cleanup] ++
        (if r.2.loop.iocp ≠ 0 then [Event.CloseHandle r.2.loop.iocp] else []) ∧
      ∀ e ∈ body, is_cleanup e = false :=
  run_internal_cleans_up_and_returns_ok sample_clock (fun _ => abandoned) false 1
    sample_machine 0 (by decide) (by decide)

/-! ## The time fields -/

theorem sub64_of_le (a b : Nat) (h : b ≤ a) (ha : a < 2 ^ 64) : sub64 a b = a - b := by
  unfold sub64
  have hb : b % 2 ^ 64 = b := Nat.mod_eq_of_lt (by omega)
  rw [hb]
  omega

theorem steady_emit (clock : Nat → Nat) (e : Event) (m : Machine)
    (he : ∀ q ty v, e = Event.timer_process q ty v → q ≠ Queue.sleeps →
      v = m.loop.now - m.loop.last_activity)
    (h : steady clock m) : steady clock (emit e m) := by
  obtain ⟨ht, hl⟩ := h
  refine ⟨ht, ?_⟩
  intro x hx
  rw [emit_log] at hx
  rcases List.mem_append.mp hx with hx | hx
  · exact hl x hx
  · rw [List.mem_singleton] at hx
    subst hx
    exact ⟨ht.1, he⟩

theorem steady_refresh_now (clock : Nat → Nat) (hmono : Monotone clock)
    (h64 : ∀ k, clock k < 2 ^ 64) (m : Machine) (h : steady clock m) :
    steady clock (refresh_now clock m) := by
  obtain ⟨⟨h1, h2, _⟩, hl⟩ := h
  have hm := hmono (Nat.le_succ m.ticks)
  have hle : m.loop.last_activity ≤ clock m.ticks := le_trans h1 h2
  refine ⟨⟨hle, hm, h64 _⟩, ?_⟩
  intro x hx
  rw [refresh_now_log] at hx
  rcases List.mem_append.mp hx with hx | hx
  · exact hl x hx
  · rw [List.mem_singleton] at hx
    subst hx
    exact ⟨hle, by intro q ty v hv; cases hv⟩

theorem steady_refresh_activity (clock : Nat → Nat) (hmono : Monotone clock)
    (h64 : ∀ k, clock k < 2 ^ 64) (m : Machine) (h : steady clock m) :
    steady clock (refresh_activity clock m) := by
  have h1 := steady_refresh_now clock hmono h64 m h
  obtain ⟨⟨_, h2, h3⟩, hl⟩ := h1
  refine ⟨⟨le_refl _, h2, h3⟩, ?_⟩
  intro x hx
  have hlog : (refresh_activity clock m).log = (refresh_now clock m).log ++
      [({ m.loop with now := clock m.ticks, last_activity := clock m.ticks },
        Event.store_last_activity)] := by
    simp
  rw [hlog] at hx
  rcases List.mem_append.mp hx with hx | hx
  · exact hl x hx
  · rw [List.mem_singleton] at hx
    subst hx
    exact ⟨le_refl _, by intro q ty v hv; cases hv⟩

theorem steady_elapsed (clock : Nat → Nat) (q : Queue) (ty : TimerType) (m : Machine)
    (h : steady clock m) :
    steady clock
      (emit (Event.timer_process q ty (sub64 m.loop.now m.loop.last_activity)) m) := by
  apply steady_emit _ _ _ _ h
  intro q1 ty1 v hv _
  cases hv
  exact sub64_of_le _ _ h.1.1 h.1.2.2

theorem steady_phase_sleep (clock : Nat → Nat) (hmono : Monotone clock)
    (h64 : ∀ k, clock k < 2 ^ 64) (inp : Inputs) (m : Machine) (h : steady clock m) :
    steady clock (phase_sleep clock inp m) := by
  have h1 : steady clock
      (emit (Event.timer_process Queue.sleeps TimerType.TIMER_Sleep m.loop.now) m) := by
    apply steady_emit _ _ _ _ h
    intro q ty v hv hq
    cases hv
    exact absurd rfl hq
  unfold phase_sleep
  by_cases hc : 0 < inp.sleeps_fired
  · simp only [hc, if_true]
    exact steady_refresh_activity clock hmono h64 _ h1
  · simp only [hc, if_false]
    exact h1

theorem steady_phase_wait (clock : Nat → Nat) (hmono : Monotone clock)
    (h64 : ∀ k, clock k < 2 ^ 64) (inp : Inputs) (m : Machine) (h : steady clock m) :
    steady clock (phase_wait clock inp m).m := by
  rw [phase_wait_eq]
  apply steady_refresh_now clock hmono h64
  apply steady_emit _ _ _ _ h
  intro q ty v hv
  cases hv

theorem steady_phase_classify (clock : Nat → Nat) (hmono : Monotone clock)
    (h64 : ∀ k, clock k < 2 ^ 64) (inp : Inputs) (f : Frame) (hb : f.broke = false)
    (h : steady clock f.m) : steady clock (phase_classify clock inp f).m := by
  rcases wait_classes inp with hs | ⟨hs, ho⟩ | ⟨hs, ho, ha⟩ | ⟨hs, ho, ht⟩ |
    ⟨hs, ho, ha, ht⟩
  · rw [classify_success _ _ _ hs]; exact h
  · rw [classify_descriptor _ _ _ hs ho hb]; exact h
  · rw [classify_abandoned _ _ _ hs ho ha]; exact h
  · rw [classify_timed_out _ _ _ hs ho ht hb]
    have h1 := steady_elapsed clock Queue.idles TimerType.TIMER_Idle f.m h
    by_cases hc : 0 < inp.idles_fired
    · simp only [hc, if_true]
      exact steady_refresh_activity clock hmono h64 _ h1
    · simp only [hc, if_false]
      exact h1
  · rw [classify_other _ _ _ hs ho ha ht hb]; exact h

theorem steady_phase_dispatch (clock : Nat → Nat) (hmono : Monotone clock)
    (h64 : ∀ k, clock k < 2 ^ 64) (inp : Inputs) (f : Frame)
    (h : steady clock f.m) : steady clock (phase_dispatch clock inp f).m := by
  unfold phase_dispatch
  by_cases hc : f.failed = false ∧ f.key ≠ 0
  · rw [if_pos hc]
    apply steady_refresh_activity clock hmono h64
    apply steady_emit _ _ _ _ h
    intro q ty v hv
    cases hv
  · rw [if_neg hc]
    exact h

theorem steady_phase_timeout (clock : Nat → Nat) (hmono : Monotone clock)
    (h64 : ∀ k, clock k < 2 ^ 64) (f : Frame)
    (h : steady clock f.m) : steady clock (phase_timeout clock f).m := by
  unfold phase_timeout
  exact steady_refresh_now clock hmono h64 _
    (steady_elapsed clock Queue.timeouts TimerType.TIMER_Timeout f.m h)

theorem steady_iteration (clock : Nat → Nat) (hmono : Monotone clock)
    (h64 : ∀ k, clock k < 2 ^ 64) (inp : Inputs) (m : Machine)
    (h : steady clock m) : steady clock (iteration clock inp m).1 := by
  have hc := steady_phase_classify clock hmono h64 inp
    (phase_wait clock inp (phase_sleep clock inp m)) rfl
    (steady_phase_wait clock hmono h64 inp _ (steady_phase_sleep clock hmono h64 inp m h))
  unfold iteration
  by_cases hb : (phase_classify clock inp
      (phase_wait clock inp (phase_sleep clock inp m))).broke = true
  · simp only [hb, if_true]
    exact hc
  · simp only [hb]
    exact steady_phase_timeout clock hmono h64 _
      (steady_phase_dispatch clock hmono h64 inp _ hc)

theorem iteration_time_inv (clock : Nat → Nat) (hmono : Monotone clock)
    (h64 : ∀ k, clock k < 2 ^ 64) (inp : Inputs) (m : Machine)
    (h : time_inv clock m) :
    time_inv clock (iteration clock inp m).1 ∧
      ∀ x ∈ iteration_log clock inp m, no_wrap x := by
  have hs := steady_iteration clock hmono h64 inp { m with log := [] }
    ⟨h, by intro x hx; cases hx⟩
  rw [iteration_eq]
  exact ⟨hs.1, hs.2⟩

theorem run_enter_time_inv (clock : Nat → Nat) (hmono : Monotone clock)
    (h64 : ∀ k, clock k < 2 ^ 64) (m : Machine) :
    time_inv clock (run_enter clock m) :=
  ⟨le_refl _, hmono (Nat.le_succ m.ticks), h64 _⟩

theorem run_cycle_no_wrap (clock : Nat → Nat) (hmono : Monotone clock)
    (h64 : ∀ k, clock k < 2 ^ 64) (env : Nat → Inputs) :
    ∀ (fuel i : Nat) (m : Machine), time_inv clock m →
      ∃ rest, (run_cycle clock env fuel i m).1.log = m.log ++ rest ∧
        ∀ x ∈ rest, no_wrap x := by
  intro fuel
  induction fuel with
  | zero => intro i m _; exact ⟨[], by simp [run_cycle], by simp⟩
  | succ k ih =>
    intro i m h
    obtain ⟨h1, h2⟩ := iteration_time_inv clock hmono h64 (env i) m h
    by_cases hc : (iteration clock (env i) m).2 = true
    · refine ⟨iteration_log clock (env i) m, ?_, h2⟩
      simp [run_cycle, hc, iteration_log_append]
    · obtain ⟨rest, hb, hn⟩ := ih (i + 1) (iteration clock (env i) m).1 h1
      refine ⟨iteration_log clock (env i) m ++ rest, ?_, ?_⟩
      · simp [run_cycle, hc, hb, iteration_log_append]
      · intro x hx
        rcases List.mem_append.mp hx with hx | hx
        · exact h2 x hx
        · exact hn x hx

/-- C10: if the clock is monotonically non-decreasing (and its readings are 64-bit
values), then at every point the run cycle logs - every external call and every
store to a time field, in any number of iterations - `last_activity ≤ now`
holds, and the value `now - last_activity` handed to the idle and timeout queues
is the true difference: the unsigned subtraction did not wrap. -/
theorem time_fields_never_wrap (clock : Nat → Nat) (env : Nat → Inputs)
    (fuel : Nat) (m : Machine) (hmono : Monotone clock)
    (h64 : ∀ k, clock k < 2 ^ 64) :
    ∃ rest,
      (run_cycle clock env fuel 0 (run_enter clock m)).1.log =
        (run_enter clock m).log ++ rest ∧
      ∀ x ∈ rest, x.1.last_activity ≤ x.1.now ∧
        ∀ q ty v, x.2 = Event.timer_process q ty v → q ≠ Queue.sleeps →
          v = x.1.now - x.1.last_activity :=
  run_cycle_no_wrap clock hmono h64 env fuel 0 (run_enter clock m)
    (run_enter_time_inv clock hmono h64 m)

/-- Witness of C10: two iterations whose waits time out, on the sample clock. -/
theorem time_fields_never_wrap_witness :
    ∃ rest,
      (run_cycle sample_clock (fun _ => timed_out) 2 0
          (run_enter sample_clock sample_machine)).1.log =
        (run_enter sample_clock sample_machine).log ++ rest ∧
      ∀ x ∈ rest, x.1.last_activity ≤ x.1.now ∧
        ∀ q ty v, x.2 = Event.timer_process q ty v → q ≠ Queue.sleeps →
          v = x.1.now - x.1.last_activity :=
  time_fields_never_wrap sample_clock (fun _ => timed_out) 2 sample_machine
    (fun _ _ h => min_le_min h (le_refl 1000))
    (fun k => lt_of_le_of_lt (min_le_right k 1000) (by norm_num))

/-! ## Closing the handle -/

/-- C7, evaluated: two calls of `api_loop_stop` on a loop with the open handle 7
both call `CloseHandle` on it, the second on the handle the first has closed; the
loop's `iocp` field is left as it was. -/
theorem stop_twice_closes_twice :
    events (api_loop_stop false (api_loop_stop true sample_machine).2).2.log =
      [Event.CloseHandle 7, Event.CloseHandle 7] ∧
    (calls (is_close 7)
      (api_loop_stop false (api_loop_stop true sample_machine).2).2.log).length = 2 ∧
    (api_loop_stop true sample_machine).2.loop.iocp = 7 := by
  decide

/-! ## Setup failures -/

/-- C9, evaluated: when posting the bootstrap callback fails (here with error 12)
`api_loop_run` closes the handle and returns the error, but the pool that
`api_loop_init` initialised is not cleaned up; `api_loop_start` does call the
cleanup when spawning the thread fails. -/
theorem run_post_failure_leaks_pool :
    (api_loop_run (fun e => Int.ofNat e) sample_clock (fun _ => completed)
        { iocp := 7, last_error := 0, callback := 1, post_result := 12,
          close_ok := true } 5).map (fun r => (r.1, events r.2.log)) =
      some (12, [Event.CreateIoCompletionPort, Event.pool_init, Event.async_post,
        Event.CloseHandle 7]) ∧
    (let r := api_loop_start (fun e => Int.ofNat e) 12
        { malloc_result := 4096, iocp := 7, last_error := 0, thread := 0, errno := 11,
          close_ok := true }
     (r.1, r.2.1, events r.2.2.log)) =
      (11, 0, [Event.malloc, Event.CreateIoCompletionPort, Event.pool_init,
        Event.beginthreadex, Event.timer_terminate Queue.idles,
        Event.timer_terminate Queue.sleeps, Event.timer_terminate Queue.timeouts,
        Event.wait_notify, Event.scheduler_destroy, Event.pool_cleanup,
        Event.CloseHandle 7, Event.free 4096]) := by
  decide

end Libapi
